import Mathlib

/-!
Verification of the duckpond multi-tenant connection manager.

This file gives a shallow embedding of the repository's core:
the `LRUCache` (src/cache/LRUCache.ts) and the `DuckPond` connection
manager (src/DuckPond.ts), together with theorems settling the stated
properties of the specification.

Modelling conventions:
- JS `Map` iteration order is modelled by an association list whose head is
  the least-recently-inserted (hence least-recently-used) entry.
- Timestamps (`Date.getTime()` milliseconds) are modelled as `Int`; every
  operation that reads the clock takes an explicit `now` argument.
- The opaque engine boundary (`DuckDBInstance.create`, `instance.connect()`,
  `connection.run(sql)`) is an oracle record `Engine`; a connection is
  identified by the index of the `connect()` call that produced it.
- functype `Either<DuckPondError, T>` is `Except DuckPondError T`
  (`Except.error` = `Left`).  A public async operation returns
  `Except String (Except DuckPondError T)`: the outer `Except.error m`
  models a JavaScript exception (rejected promise) escaping the public
  boundary with message `m`, which the repository's result-typed API is
  not supposed to produce.
- Async control flow is modelled sequentially (the spec's single-threaded
  cooperative model: every operation runs to completion).
-/

/-- Storage strategy (`DuckPondConfig.strategy` in src/types.ts). -/
inductive Strategy where
  | parquet
  | duckdb
  | hybrid
deriving DecidableEq, Repr

/-- R2 credential block (src/types.ts). -/
structure R2Config where
  accountId : String
  accessKeyId : String
  secretAccessKey : String
  bucket : String
deriving DecidableEq, Repr

/-- S3 credential block (src/types.ts). -/
structure S3Config where
  region : String
  accessKeyId : String
  secretAccessKey : String
  bucket : String
  endpoint : Option String
deriving DecidableEq, Repr

/-- Configuration with defaults applied (`ResolvedConfig` in src/types.ts).
The `DuckPond` constructor's default application is not claim-relevant, so
the model starts from the resolved form. -/
structure ResolvedConfig where
  memoryLimit : String
  threads : Nat
  tempDir : String
  maxActiveUsers : Nat
  evictionTimeout : Int
  cacheType : String
  cacheDir : String
  strategy : Strategy
  r2 : Option R2Config
  s3 : Option S3Config
deriving DecidableEq, Repr

/-- An active user database connection (`UserDatabase` in src/types.ts).
`connection` is the opaque `DuckDBConnection`, identified by the index of
the `connect()` call that created it. -/
structure UserDatabase where
  userId : String
  connection : Nat
  lastAccess : Int
  attached : Bool
  memoryUsage : Option Nat
deriving DecidableEq, Repr

/-- The LRU cache (src/cache/LRUCache.ts): a JS `Map` from user id to
`UserDatabase`, modelled as an association list in `Map` iteration order
(head = least recently used, last = most recently used). -/
structure LRUCache where
  entries : List (String × UserDatabase)
  maxSize : Nat
deriving DecidableEq, Repr

namespace LRUCache

/-- A fresh cache (`new LRUCache(maxSize)`). -/
def empty (maxSize : Nat) : LRUCache := ⟨[], maxSize⟩

/-- JS `Map.delete(key)`: remove the entry stored under `key`. -/
def removeKey (key : String) (es : List (String × UserDatabase)) :
    List (String × UserDatabase) :=
  es.filter (fun kv => kv.1 != key)

/-- `LRUCache.get`: on a hit, move the entry to the most-recently-used end
and refresh its `lastAccess` to the current time; return the entry. -/
def get (c : LRUCache) (key : String) (now : Int) :
    Option UserDatabase × LRUCache :=
  match c.entries.lookup key with
  | none => (none, c)
  | some item =>
      let item := { item with lastAccess := now }
      (some item, { c with entries := removeKey key c.entries ++ [(key, item)] })

/-- `LRUCache.getLRU`: the first key in `Map` iteration order. -/
def getLRU (c : LRUCache) : Option String :=
  c.entries.head?.map (fun kv => kv.1)

/-- `LRUCache.evictLRU` (private): delete the least-recently-used key, if any. -/
def evictLRU (c : LRUCache) : LRUCache :=
  match c.getLRU with
  | none => c
  | some k => { c with entries := removeKey k c.entries }

/-- `LRUCache.set`: remove an existing entry under the key (position reset),
evict the LRU entry when still at capacity, then insert at the
most-recently-used end with `lastAccess` set to the current time. -/
def set (c : LRUCache) (key : String) (value : UserDatabase) (now : Int) :
    LRUCache :=
  let c := if (c.entries.lookup key).isSome
           then { c with entries := removeKey key c.entries } else c
  let c := if c.entries.length ≥ c.maxSize then c.evictLRU else c
  { c with entries := c.entries ++ [(key, { value with lastAccess := now })] }

/-- `LRUCache.delete`: remove the entry; report whether something was removed. -/
def delete (c : LRUCache) (key : String) : Bool × LRUCache :=
  ((c.entries.lookup key).isSome, { c with entries := removeKey key c.entries })

/-- `LRUCache.has`. -/
def has (c : LRUCache) (key : String) : Bool :=
  (c.entries.lookup key).isSome

/-- `LRUCache.size`. -/
def size (c : LRUCache) : Nat := c.entries.length

/-- `LRUCache.keys`. -/
def keys (c : LRUCache) : List String := c.entries.map (fun kv => kv.1)

/-- `LRUCache.values`. -/
def values (c : LRUCache) : List UserDatabase := c.entries.map (fun kv => kv.2)

/-- `LRUCache.getStale`: keys of all entries with `now - lastAccess > timeoutMs`
(strict inequality), in `Map` iteration order. -/
def getStale (c : LRUCache) (timeoutMs : Int) (now : Int) : List String :=
  (c.entries.filter (fun kv => decide (now - kv.2.lastAccess > timeoutMs))).map
    (fun kv => kv.1)

/-- Result of `LRUCache.getStats`. -/
structure Stats where
  size : Nat
  maxSize : Nat
  utilizationPercent : ℚ
  oldestAccessTime : Option Int
deriving DecidableEq, Repr

/-- `LRUCache.getStats`: `oldestAccessTime` is the head of the values sorted
ascending by `lastAccess`, i.e. the minimal `lastAccess`. -/
def getStats (c : LRUCache) : Stats :=
  { size := c.entries.length
    maxSize := c.maxSize
    utilizationPercent := ((c.entries.length : ℚ) / (c.maxSize : ℚ)) * 100
    oldestAccessTime :=
      (c.values.map (fun v => v.lastAccess)).foldl
        (fun acc t => match acc with
          | none => some t
          | some a => some (min a t)) none }

end LRUCache

/-- Error codes (src/types.ts, the subset reachable from the modelled code). -/
inductive ErrorCode where
  | CONNECTION_FAILED
  | R2_CONNECTION_ERROR
  | S3_CONNECTION_ERROR
  | USER_NOT_FOUND
  | QUERY_EXECUTION_ERROR
  | STORAGE_ERROR
  | NOT_INITIALIZED
  | UNKNOWN_ERROR
deriving DecidableEq, Repr

/-- Structured error (src/types.ts `DuckPondError`; `cause`/`context` carry no
claim-relevant information beyond the message and are omitted). -/
structure DuckPondError where
  code : ErrorCode
  message : String
deriving DecidableEq, Repr

/-- functype `Either<DuckPondError, T>`: `Except.error` = `Left`. -/
abbrev DuckPondResult (α : Type) := Except DuckPondError α

/-- Outcome of an async public operation: the outer `Except.error m` models a
JavaScript exception escaping the public boundary with message `m`. -/
abbrev Outcome (α : Type) := Except String (DuckPondResult α)

/-- Decidable equality for outcomes (used to settle concrete scenarios). -/
instance exceptDecEq {e a : Type} [DecidableEq e] [DecidableEq a] :
    DecidableEq (Except e a) := fun x y =>
  match x, y with
  | .error u, .error v => decidable_of_iff (u = v) (by simp)
  | .ok u, .ok v => decidable_of_iff (u = v) (by simp)
  | .error _, .ok _ => isFalse (fun hc => Except.noConfusion hc)
  | .ok _, .error _ => isFalse (fun hc => Except.noConfusion hc)

/-- `Errors.notInitialized` (src/utils/errors.ts). -/
def Errors.notInit : DuckPondError :=
  ⟨ErrorCode.NOT_INITIALIZED, "DuckPond not initialized. Call init() first."⟩

/-- `Errors.storageError` (src/utils/errors.ts). -/
def Errors.storageError (message : String) : DuckPondError :=
  ⟨ErrorCode.STORAGE_ERROR, message⟩

/-- `Errors.r2ConnectionError` (src/utils/errors.ts). -/
def Errors.r2ConnectionError (message : String) : DuckPondError :=
  ⟨ErrorCode.R2_CONNECTION_ERROR, message⟩

/-- `toDuckPondError` (src/utils/errors.ts): wrap a thrown error's message. -/
def toDuckPondError (message : String) (defaultCode : ErrorCode) : DuckPondError :=
  ⟨defaultCode, message⟩

/-- Oracle for the engine boundary (spec section 6): instance creation, the
outcome of the k-th `connect()` call, and `conn.run(sql)` (together with
`getRowObjects()`, whose rows are modelled as strings).  `Except.error m`
means the engine call throws with message `m`. -/
structure Engine where
  create : Except String Unit
  connect : Nat → Except String Unit
  runq : Nat → String → Except String (List String)

/-- The `DuckPond` manager state (src/DuckPond.ts fields).  `instanceRef`
models the `instance` field (a Lean keyword); `timerRunning` models whether
the `setInterval` registration is active (`clearInterval` stops it while the
`evictionTimer` handle field itself is not reset). -/
structure DuckPond where
  instanceRef : Option Unit
  cache : LRUCache
  config : ResolvedConfig
  evictionTimer : Option Unit
  timerRunning : Bool
  initialized : Bool
  nextConn : Nat
deriving DecidableEq, Repr

/-- `new DuckPond(config)` (defaults already resolved). -/
def mkDuckPond (config : ResolvedConfig) : DuckPond :=
  { instanceRef := none
    cache := LRUCache.empty config.maxActiveUsers
    config := config
    evictionTimer := none
    timerRunning := false
    initialized := false
    nextConn := 0 }

namespace DuckPond

/-- The SQL statements `setupCloudStorage` issues, in order: the credential
secret (R2 preferred over S3), extension install/load and cache type when
remote storage is configured, then the performance settings. -/
def setupSqls (cfg : ResolvedConfig) : List String :=
  (match cfg.r2 with
   | some r2 =>
       [s!"CREATE SECRET r2_secret (TYPE R2, ACCOUNT_ID {r2.accountId}, ACCESS_KEY_ID {r2.accessKeyId}, SECRET_ACCESS_KEY {r2.secretAccessKey});"]
   | none =>
     match cfg.s3 with
     | some s3 =>
         [s!"CREATE SECRET s3_secret (TYPE S3, REGION {s3.region}, ACCESS_KEY_ID {s3.accessKeyId}, SECRET_ACCESS_KEY {s3.secretAccessKey});"]
     | none => []) ++
  (if cfg.r2.isSome || cfg.s3.isSome then
     ["INSTALL httpfs; LOAD httpfs; INSTALL cache_httpfs; LOAD cache_httpfs;",
      s!"SET cache_httpfs_type={cfg.cacheType};"]
   else []) ++
  [s!"SET memory_limit={cfg.memoryLimit}; SET threads={cfg.threads};"]

/-- Run a list of SQL statements on one connection, stopping at the first
engine exception. -/
def runSqls (eng : Engine) (conn : Nat) : List String → Except String Unit
  | [] => .ok ()
  | sql :: rest =>
    match eng.runq conn sql with
    | .error m => .error m
    | .ok _ => runSqls eng conn rest

/-- `DuckPond.setupCloudStorage` (private).  Note that `instance.connect()` is
called before the `try` block: a throwing `connect()` escapes this function
(outer `Except.error`), while a throwing `conn.run` inside the `try` is
wrapped as an `R2_CONNECTION_ERROR` Left. -/
def setupCloudStorage (eng : Engine) (s : DuckPond) : Outcome Unit × DuckPond :=
  if s.instanceRef.isNone then (.ok (.error Errors.notInit), s)
  else
    match eng.connect s.nextConn with
    | .error m => (.error m, { s with nextConn := s.nextConn + 1 })
    | .ok () =>
      let conn := s.nextConn
      let s := { s with nextConn := s.nextConn + 1 }
      match runSqls eng conn (setupSqls s.config) with
      | .error _ =>
          (.ok (.error (Errors.r2ConnectionError "Failed to setup cloud storage")), s)
      | .ok () => (.ok (.ok ()), s)

/-- `DuckPond.init`: idempotent; on the first call create the engine instance,
configure cloud storage, start the eviction timer and set `initialized`.
Every throw inside the `try` (instance creation, the connect inside
`setupCloudStorage`, or the re-thrown setup Left) is caught and wrapped as a
`CONNECTION_FAILED` Left. -/
def init (eng : Engine) (s : DuckPond) : Outcome Unit × DuckPond :=
  if s.initialized then (.ok (.ok ()), s)
  else
    match eng.create with
    | .error m => (.ok (.error (toDuckPondError m ErrorCode.CONNECTION_FAILED)), s)
    | .ok () =>
      let s := { s with instanceRef := some () }
      match setupCloudStorage eng s with
      | (.error m, s') =>
          (.ok (.error (toDuckPondError m ErrorCode.CONNECTION_FAILED)), s')
      | (.ok (.error e), s') =>
          (.ok (.error (toDuckPondError e.message ErrorCode.CONNECTION_FAILED)), s')
      | (.ok (.ok ()), s') =>
          (.ok (.ok ()),
           { s' with timerRunning := true, evictionTimer := some (),
                     initialized := true })

/-- `DuckPond.attachUserDatabase` (private): only the `duckdb` strategy runs an
`ATTACH` statement; a throwing run is wrapped as a `STORAGE_ERROR` Left. -/
def attachUserDatabase (eng : Engine) (s : DuckPond) (conn : Nat)
    (userId : String) : DuckPondResult Unit :=
  let bucket := ((s.config.r2.map (fun r => r.bucket)).orElse
                 (fun _ => s.config.s3.map (fun r => r.bucket))).getD "undefined"
  let protocol := if s.config.r2.isSome then "r2" else "s3"
  if s.config.strategy = Strategy.duckdb then
    let dbPath := s!"{protocol}://{bucket}/users/{userId}/database.duckdb"
    match eng.runq conn s!"ATTACH {dbPath} AS user_{userId} (READ_ONLY);" with
    | .error _ => .error (Errors.storageError "Failed to attach user database")
    | .ok _ => .ok ()
  else .ok ()

/-- `DuckPond.detachUser`: a cache miss is a no-op success.  On a hit (which,
via `cache.get`, refreshes the entry's recency and `lastAccess`), the
`duckdb` strategy first runs a `DETACH` statement; only when no exception was
thrown is the entry deleted from the cache — a throwing detach is wrapped as
a `STORAGE_ERROR` Left and skips the cache deletion. -/
def detachUser (eng : Engine) (now : Int) (userId : String) (s : DuckPond) :
    Outcome Unit × DuckPond :=
  let r := s.cache.get userId now
  let s := { s with cache := r.2 }
  match r.1 with
  | none => (.ok (.ok ()), s)
  | some userDb =>
    if s.config.strategy = Strategy.duckdb then
      match eng.runq userDb.connection s!"DETACH user_{userId}" with
      | .error _ => (.ok (.error (Errors.storageError "Failed to detach user")), s)
      | .ok _ => (.ok (.ok ()), { s with cache := (s.cache.delete userId).2 })
    else
      (.ok (.ok ()), { s with cache := (s.cache.delete userId).2 })

/-- `DuckPond.evictLRU` (private): detach the least-recently-used user; the
result of `detachUser` is dropped (a `forEach` over the `getLRU` Option whose
promise is not awaited — errors are ignored). -/
def evictLRU (eng : Engine) (now : Int) (s : DuckPond) : DuckPond :=
  match s.cache.getLRU with
  | none => s
  | some userId => (detachUser eng now userId s).2

/-- `DuckPond.getUserConnection`: not-initialized guard, cache hit (recency
refresh), else evict at capacity, connect (the unguarded `await
instance.connect()` — a throw escapes), strategy attach, and cache insert. -/
def getUserConnection (eng : Engine) (now : Int) (userId : String)
    (s : DuckPond) : Outcome Nat × DuckPond :=
  if ¬ s.initialized then (.ok (.error Errors.notInit), s)
  else
    let r := s.cache.get userId now
    let s := { s with cache := r.2 }
    match r.1 with
    | some userDb => (.ok (.ok userDb.connection), s)
    | none =>
      let s := if s.cache.size ≥ s.config.maxActiveUsers
               then evictLRU eng now s else s
      if s.instanceRef.isNone then (.ok (.error Errors.notInit), s)
      else
        match eng.connect s.nextConn with
        | .error m => (.error m, { s with nextConn := s.nextConn + 1 })
        | .ok () =>
          let conn := s.nextConn
          let s := { s with nextConn := s.nextConn + 1 }
          match attachUserDatabase eng s conn userId with
          | .error e => (.ok (.error e), s)
          | .ok () =>
            let newDb : UserDatabase :=
              { userId := userId, connection := conn, lastAccess := now,
                attached := true, memoryUsage := none }
            let s := { s with cache := s.cache.set userId newDb now }
            (.ok (.ok conn), s)

/-- `DuckPond.query`: acquire a connection (propagating failures unchanged),
then run the statement; an engine throw is wrapped as a
`QUERY_EXECUTION_ERROR` Left preserving the engine's message. -/
def query (eng : Engine) (now : Int) (userId : String) (sql : String)
    (s : DuckPond) : Outcome (List String) × DuckPond :=
  match getUserConnection eng now userId s with
  | (.error m, s') => (.error m, s')
  | (.ok (.error e), s') => (.ok (.error e), s')
  | (.ok (.ok conn), s') =>
    match eng.runq conn sql with
    | .error m =>
        (.ok (.error (toDuckPondError m ErrorCode.QUERY_EXECUTION_ERROR)), s')
    | .ok rows => (.ok (.ok rows), s')

/-- `DuckPond.execute`: identical sequencing to `query`, no rows returned. -/
def execute (eng : Engine) (now : Int) (userId : String) (sql : String)
    (s : DuckPond) : Outcome Unit × DuckPond :=
  match getUserConnection eng now userId s with
  | (.error m, s') => (.error m, s')
  | (.ok (.error e), s') => (.ok (.error e), s')
  | (.ok (.ok conn), s') =>
    match eng.runq conn sql with
    | .error m =>
        (.ok (.error (toDuckPondError m ErrorCode.QUERY_EXECUTION_ERROR)), s')
    | .ok _ => (.ok (.ok ()), s')

/-- `DuckPond.isAttached`: pure cache-membership check. -/
def isAttached (userId : String) (s : DuckPond) : Bool :=
  s.cache.has userId

/-- Result of `DuckPond.getUserStats` (src/types.ts `UserStats`). -/
structure UserStats where
  userId : String
  attached : Bool
  lastAccess : Int
  memoryUsage : Nat
  storageUsage : Nat
  queryCount : Nat
deriving DecidableEq, Repr

/-- `DuckPond.getUserStats`: resolves the entry through `cache.get` (hence
refreshes recency and `lastAccess` on a hit); an absent user yields a success
with `attached := false` and `lastAccess` = epoch (`new Date(0)`). -/
def getUserStats (now : Int) (userId : String) (s : DuckPond) :
    Outcome UserStats × DuckPond :=
  let r := s.cache.get userId now
  (.ok (.ok
    { userId := userId
      attached := r.1.isSome
      lastAccess := (r.1.map (fun u => u.lastAccess)).getD 0
      memoryUsage := (r.1.map (fun u => u.memoryUsage.getD 0)).getD 0
      storageUsage := 0
      queryCount := 0 }),
   { s with cache := r.2 })

/-- Result of `DuckPond.listUsers` (src/types.ts `ListUsersResult`). -/
structure ListUsersResult where
  users : List String
  count : Nat
  maxActiveUsers : Nat
  utilizationPercent : ℚ
deriving DecidableEq, Repr

/-- `DuckPond.listUsers`: snapshot of cache statistics. -/
def listUsers (s : DuckPond) : ListUsersResult :=
  let stats := s.cache.getStats
  { users := s.cache.keys
    count := stats.size
    maxActiveUsers := stats.maxSize
    utilizationPercent := stats.utilizationPercent }

/-- `DuckPond.close`: stop the eviction timer, detach every cached user (keys
snapshot taken first; individual Left results are collected and ignored),
drop the instance reference and reset `initialized`. -/
def close (eng : Engine) (now : Int) (s : DuckPond) : Outcome Unit × DuckPond :=
  let s := { s with timerRunning := false }
  let s := (s.cache.keys).foldl (fun acc userId => (detachUser eng now userId acc).2) s
  (.ok (.ok ()), { s with instanceRef := none, initialized := false })

/-- One tick of the idle-sweep timer callback (`startEvictionTimer`): detach
every stale user; results are dropped. -/
def sweepTick (eng : Engine) (now : Int) (s : DuckPond) : DuckPond :=
  (s.cache.getStale s.config.evictionTimeout now).foldl
    (fun acc userId => (detachUser eng now userId acc).2) s

end DuckPond

/-! ### Concrete fixtures for scenario claims -/

/-- An engine that never throws: creation and every connect succeed, and every
statement runs returning no rows. -/
def okEngine : Engine :=
  { create := .ok ()
    connect := fun _ => .ok ()
    runq := fun _ _ => .ok [] }

/-- The resolved default configuration of the test suite
(`new DuckPond({memoryLimit: "1GB"})`) with `maxActiveUsers := 2`. -/
def cfg2 : ResolvedConfig :=
  { memoryLimit := "1GB"
    threads := 4
    tempDir := "/tmp/duckpond"
    maxActiveUsers := 2
    evictionTimeout := 300000
    cacheType := "disk"
    cacheDir := "/tmp/duckpond-cache"
    strategy := Strategy.parquet
    r2 := none
    s3 := none }

/-- The resolved default configuration (capacity 10, parquet strategy). -/
def cfg10 : ResolvedConfig :=
  { cfg2 with maxActiveUsers := 10 }

/-- Recency-refresh scenario: capacity 2; acquire A, acquire B, acquire A
(cache hit), acquire C. -/
def recencyRun : DuckPond :=
  let s := (DuckPond.init okEngine (mkDuckPond cfg2)).2
  let s := (DuckPond.getUserConnection okEngine 1 "A" s).2
  let s := (DuckPond.getUserConnection okEngine 2 "B" s).2
  let s := (DuckPond.getUserConnection okEngine 3 "A" s).2
  (DuckPond.getUserConnection okEngine 4 "C" s).2

/-- Claim C2: with capacity 2, after acquire(A), acquire(B), acquire(A) (a
cache hit refreshing A's recency), acquire(C), tenant B is the one evicted
and not A: isAttached(B) is false while isAttached(A) and isAttached(C) are
true. -/
theorem recency_refresh_scenario :
    DuckPond.isAttached "B" recencyRun = false ∧
    DuckPond.isAttached "A" recencyRun = true ∧
    DuckPond.isAttached "C" recencyRun = true := by
  decide

/-- Claim C9: staleness uses a strict inequality: `getStale` lists exactly the
keys of entries with `now - lastAccess > timeout`; an entry whose age equals
the timeout exactly is not reported stale. -/
theorem getStale_strict_boundary (c : LRUCache) (timeoutMs now : Int)
    (key : String) :
    key ∈ c.getStale timeoutMs now ↔
      ∃ kv ∈ c.entries, kv.1 = key ∧ now - kv.2.lastAccess > timeoutMs := by
  simp only [LRUCache.getStale, List.mem_map, List.mem_filter,
    decide_eq_true_eq]
  constructor
  · rintro ⟨kv, ⟨hmem, hstale⟩, hkey⟩
    exact ⟨kv, hmem, hkey, hstale⟩
  · rintro ⟨kv, hmem, hkey, hstale⟩
    exact ⟨kv, ⟨hmem, hstale⟩, hkey⟩

/-! ### Association-list helper lemmas -/

namespace LRUCache

theorem lookup_cons_eq (k : String) (v : UserDatabase)
    (t : List (String × UserDatabase)) : ((k, v) :: t).lookup k = some v := by
  simp [List.lookup]

theorem lookup_cons_ne {k a : String} (v : UserDatabase)
    (t : List (String × UserDatabase)) (h : k ≠ a) :
    ((a, v) :: t).lookup k = t.lookup k := by
  simp [List.lookup, beq_eq_false_iff_ne.mpr h]

theorem lookup_some_mem {l : List (String × UserDatabase)} {k : String}
    {v : UserDatabase} (h : l.lookup k = some v) : ∃ p ∈ l, p.1 = k := by
  induction l with
  | nil => simp [List.lookup] at h
  | cons a t ih =>
    obtain ⟨ak, av⟩ := a
    by_cases hk : k = ak
    · exact ⟨(ak, av), List.mem_cons_self _ _, hk.symm⟩
    · rw [lookup_cons_ne av t hk] at h
      obtain ⟨p, hp, hpk⟩ := ih h
      exact ⟨p, List.mem_cons_of_mem _ hp, hpk⟩

theorem lookup_none_not_mem {l : List (String × UserDatabase)} {k : String}
    (h : l.lookup k = none) : ∀ p ∈ l, p.1 ≠ k := by
  induction l with
  | nil => simp
  | cons a t ih =>
    obtain ⟨ak, av⟩ := a
    by_cases hk : k = ak
    · subst hk
      rw [lookup_cons_eq] at h
      exact absurd h (by simp)
    · rw [lookup_cons_ne av t hk] at h
      intro p hp
      rcases List.mem_cons.mp hp with h1 | h2
      · subst h1; simpa using fun hc => hk hc.symm
      · exact ih h p h2

theorem length_removeKey_le (k : String) (l : List (String × UserDatabase)) :
    (removeKey k l).length ≤ l.length :=
  List.length_filter_le _ l

theorem length_removeKey_lt {l : List (String × UserDatabase)} {k : String}
    {v : UserDatabase} (h : l.lookup k = some v) :
    (removeKey k l).length < l.length := by
  apply List.length_filter_lt_length_iff_exists.mpr
  obtain ⟨p, hp, hpk⟩ := lookup_some_mem h
  exact ⟨p, hp, by simp [hpk]⟩

theorem removeKey_eq_self {l : List (String × UserDatabase)} {k : String}
    (h : l.lookup k = none) : removeKey k l = l := by
  apply List.filter_eq_self.mpr
  intro p hp
  simpa using lookup_none_not_mem h p hp

theorem lookup_removeKey_append (k : String) (v : UserDatabase)
    (l : List (String × UserDatabase)) :
    (removeKey k l ++ [(k, v)]).lookup k = some v := by
  induction l with
  | nil => simp [removeKey, List.lookup]
  | cons a t ih =>
    obtain ⟨ak, av⟩ := a
    by_cases hk : ak = k
    · subst hk
      simpa [removeKey] using ih
    · have hne : k ≠ ak := fun hc => hk hc.symm
      simp only [removeKey, List.filter]
      rw [show ((ak, av).1 != k) = true from by simpa using hk]
      rw [List.cons_append, lookup_cons_ne av _ hne]
      exact ih

/-- After a successful `get`, the key is present (`has`). -/
theorem has_after_get_hit {c : LRUCache} {k : String} {now : Int}
    {e : UserDatabase} (h : c.entries.lookup k = some e) :
    (c.get k now).2.has k = true := by
  simp only [get, h, has]
  rw [lookup_removeKey_append]
  rfl

end LRUCache

/-! ### Capacity invariant (LRUCache) -/

namespace LRUCache

theorem evictLRU_maxSize (c : LRUCache) : c.evictLRU.maxSize = c.maxSize := by
  unfold evictLRU
  cases h : c.getLRU <;> rfl

theorem get_maxSize (c : LRUCache) (k : String) (now : Int) :
    (c.get k now).2.maxSize = c.maxSize := by
  unfold get
  cases h : c.entries.lookup k <;> rfl

theorem set_maxSize (c : LRUCache) (k : String) (v : UserDatabase) (now : Int) :
    (c.set k v now).maxSize = c.maxSize := by
  unfold set
  dsimp only
  split <;> split <;> simp [evictLRU_maxSize]

theorem evictLRU_length_lt (c : LRUCache) (h : c.entries ≠ []) :
    c.evictLRU.entries.length < c.entries.length := by
  obtain ⟨a, t, hc⟩ : ∃ a t, c.entries = a :: t := by
    cases hce : c.entries with
    | nil => exact absurd hce h
    | cons a t => exact ⟨a, t, rfl⟩
  have hg : c.getLRU = some a.1 := by simp [getLRU, hc]
  have he : c.evictLRU = { c with entries := removeKey a.1 c.entries } := by
    simp [evictLRU, hg]
  rw [he]
  show (removeKey a.1 c.entries).length < c.entries.length
  rw [hc]
  simp only [removeKey, List.filter_cons, bne_self_eq_false, List.length_cons]
  exact Nat.lt_succ_of_le (List.length_filter_le _ t)

theorem capped_append_le (d : LRUCache) (x : String × UserDatabase)
    (hpos : 0 < d.maxSize) (hle : d.entries.length ≤ d.maxSize) :
    ((if d.entries.length ≥ d.maxSize then d.evictLRU else d).entries
      ++ [x]).length ≤ d.maxSize := by
  by_cases hcap : d.entries.length ≥ d.maxSize
  · rw [if_pos hcap]
    have hne : d.entries ≠ [] := by
      intro hnil
      rw [hnil] at hcap
      simp only [List.length_nil] at hcap
      omega
    have hlt := evictLRU_length_lt d hne
    simp only [List.length_append, List.length_cons, List.length_nil]
    omega
  · rw [if_neg hcap]
    simp only [List.length_append, List.length_cons, List.length_nil]
    omega

theorem set_size_le (c : LRUCache) (k : String) (v : UserDatabase) (now : Int)
    (hpos : 0 < c.maxSize) (h : c.entries.length ≤ c.maxSize) :
    (c.set k v now).entries.length ≤ c.maxSize := by
  unfold set
  dsimp only
  by_cases h1 : (c.entries.lookup k).isSome
  · rw [if_pos h1]
    exact capped_append_le { c with entries := removeKey k c.entries } _
      hpos (le_trans (List.length_filter_le _ _) h)
  · rw [if_neg h1]
    exact capped_append_le c _ hpos h

theorem get_size_le (c : LRUCache) (k : String) (now : Int)
    (h : c.entries.length ≤ c.maxSize) :
    (c.get k now).2.entries.length ≤ c.maxSize := by
  unfold get
  cases hl : c.entries.lookup k with
  | none => simpa using h
  | some e =>
    dsimp only
    simp only [List.length_append, List.length_cons, List.length_nil]
    have := length_removeKey_lt (l := c.entries) (k := k) (v := e) hl
    omega

theorem delete_size_le (c : LRUCache) (k : String)
    (h : c.entries.length ≤ c.maxSize) :
    (c.delete k).2.entries.length ≤ c.maxSize :=
  le_trans (List.length_filter_le _ _) h

end LRUCache

/-- One mutating or reading operation on the `LRUCache`, as performed by the
manager on acquire/release: `get` (recency refresh), `set` (insert with
capacity eviction), `delete` (explicit removal). -/
inductive CacheOp where
  | get (key : String) (now : Int)
  | set (key : String) (value : UserDatabase) (now : Int)
  | delete (key : String)

/-- Apply one cache operation, keeping only the resulting cache state. -/
def applyOp (c : LRUCache) : CacheOp → LRUCache
  | .get k now => (c.get k now).2
  | .set k v now => c.set k v now
  | .delete k => (c.delete k).2

/-- Run a sequence of cache operations from left to right. -/
def runOps (c : LRUCache) : List CacheOp → LRUCache
  | [] => c
  | op :: rest => runOps (applyOp c op) rest

theorem applyOp_maxSize (c : LRUCache) (op : CacheOp) :
    (applyOp c op).maxSize = c.maxSize := by
  cases op with
  | get k now => exact c.get_maxSize k now
  | set k v now => exact c.set_maxSize k v now
  | delete k => rfl

theorem applyOp_size_le (c : LRUCache) (op : CacheOp) (hpos : 0 < c.maxSize)
    (h : c.size ≤ c.maxSize) : (applyOp c op).size ≤ c.maxSize := by
  cases op with
  | get k now => exact c.get_size_le k now h
  | set k v now => exact c.set_size_le k v now hpos h
  | delete k => exact c.delete_size_le k h

theorem runOps_size_le (ops : List CacheOp) (c : LRUCache)
    (hpos : 0 < c.maxSize) (h : c.size ≤ c.maxSize) :
    (runOps c ops).size ≤ (runOps c ops).maxSize := by
  induction ops generalizing c with
  | nil => simpa [runOps] using h
  | cons op rest ih =>
    have hm := applyOp_maxSize c op
    exact ih (applyOp c op) (hm ▸ hpos) (hm ▸ applyOp_size_le c op hpos h)

theorem runOps_maxSize (ops : List CacheOp) (c : LRUCache) :
    (runOps c ops).maxSize = c.maxSize := by
  induction ops generalizing c with
  | nil => rfl
  | cons op rest ih => rw [runOps, ih, applyOp_maxSize]

/-- Claim C1: for every cache created with a fixed positive capacity and every
sequence of `get`/`set`/`delete` operations (the operations `acquire`
performs), the cache size satisfies `size ≤ maxSize` after every operation
completes (every prefix of operations is itself such a sequence). -/
theorem lruCache_capacity_invariant (maxSize : Nat) (hpos : 0 < maxSize)
    (ops : List CacheOp) :
    (runOps (LRUCache.empty maxSize) ops).size ≤ maxSize := by
  have h := runOps_size_le ops (LRUCache.empty maxSize) hpos
    (by simp [LRUCache.empty, LRUCache.size])
  rwa [runOps_maxSize] at h

/-- Witness for C1 at capacity 2 and a concrete operation sequence that
overflows without the eviction (three distinct inserts, a hit, a delete). -/
theorem lruCache_capacity_invariant_witness :
    0 < 2 ∧
    (runOps (LRUCache.empty 2)
      [CacheOp.set "A" ⟨"A", 0, 0, true, none⟩ 1,
       CacheOp.set "B" ⟨"B", 1, 0, true, none⟩ 2,
       CacheOp.get "A" 3,
       CacheOp.set "C" ⟨"C", 2, 0, true, none⟩ 4,
       CacheOp.delete "B"]).size ≤ 2 :=
  ⟨by decide,
   lruCache_capacity_invariant 2 (by decide)
     [CacheOp.set "A" ⟨"A", 0, 0, true, none⟩ 1,
      CacheOp.set "B" ⟨"B", 1, 0, true, none⟩ 2,
      CacheOp.get "A" 3,
      CacheOp.set "C" ⟨"C", 2, 0, true, none⟩ 4,
      CacheOp.delete "B"]⟩

/-! ### Claim C3: manual release with a failing detach step -/

/-- Configuration with the `duckdb` strategy (per-user ATTACH/DETACH SQL). -/
def cfgDuck : ResolvedConfig :=
  { cfg10 with strategy := Strategy.duckdb }

/-- An engine whose DETACH statement for user u1 throws; everything else
succeeds. -/
def detachFailEngine : Engine :=
  { create := .ok ()
    connect := fun _ => .ok ()
    runq := fun _ sql =>
      if sql = "DETACH user_u1" then .error "detach boom" else .ok [] }

/-- A pond with user u1 attached under the `duckdb` strategy. -/
def detachFailPond : DuckPond :=
  let s := (DuckPond.init detachFailEngine (mkDuckPond cfgDuck)).2
  (DuckPond.getUserConnection detachFailEngine 1 "u1" s).2

/-- Counterexample to C3 as stated: when the detach step raises on a manual
release, the error is surfaced but the entry is NOT removed from the cache —
the user is still attached afterwards. -/
theorem detach_failure_keeps_entry_counterexample :
    (DuckPond.detachUser detachFailEngine 2 "u1" detachFailPond).1
      = .ok (.error ⟨ErrorCode.STORAGE_ERROR, "Failed to detach user"⟩) ∧
    DuckPond.isAttached "u1"
      (DuckPond.detachUser detachFailEngine 2 "u1" detachFailPond).2 = true := by
  decide

/-- Claim C3 (amended): a manual release runs the strategy-specific detach
step; when the step raises, the failure is surfaced to the caller as a
`STORAGE_ERROR` Left, but the entry is NOT removed — the tenant remains
attached (the cache deletion only happens after a successful detach). -/
theorem detach_failure_surfaced_entry_retained
    (eng : Engine) (now : Int) (uid : String) (s : DuckPond)
    (e : UserDatabase) (m : String)
    (hcfg : s.config.strategy = Strategy.duckdb)
    (hl : s.cache.entries.lookup uid = some e)
    (hrun : eng.runq e.connection s!"DETACH user_{uid}" = .error m) :
    (DuckPond.detachUser eng now uid s).1
      = .ok (.error (Errors.storageError "Failed to detach user")) ∧
    DuckPond.isAttached uid (DuckPond.detachUser eng now uid s).2 = true := by
  unfold DuckPond.detachUser
  simp only [LRUCache.get, hl]
  simp only [hcfg, reduceIte]
  rw [show (({ e with lastAccess := now } : UserDatabase)).connection
        = e.connection from rfl, hrun]
  refine ⟨rfl, ?_⟩
  simp [DuckPond.isAttached, LRUCache.has, LRUCache.lookup_removeKey_append]

/-- Witness for the amended C3 at the concrete failing-detach fixture. -/
theorem detach_failure_surfaced_entry_retained_witness :
    detachFailPond.config.strategy = Strategy.duckdb ∧
    DuckPond.isAttached "u1"
      (DuckPond.detachUser detachFailEngine 2 "u1" detachFailPond).2 = true := by
  refine ⟨by decide, ?_⟩
  exact (detach_failure_surfaced_entry_retained detachFailEngine 2 "u1"
    detachFailPond ⟨"u1", 1, 1, true, none⟩ "detach boom"
    (by decide) (by decide) (by decide)).2

/-! ### Claim C4: behaviour before initialization -/

/-- Counterexample to C4 as stated: `detachUser` invoked before `init()` does
not return a NotInitialized error — it returns success (it performs no
initialization check). -/
theorem detach_before_init_returns_success :
    (mkDuckPond cfg10).initialized = false ∧
    (DuckPond.detachUser okEngine 0 "u1" (mkDuckPond cfg10)).1
      = .ok (.ok ()) := by
  decide

/-- Claim C4 (amended): before `init()` succeeds, `query` and `execute`
deterministically return the NotInitialized error with no state change (no
cache mutation, no engine call), while `detachUser` (on an uncached tenant)
and `getUserStats` perform no initialization check and return success. -/
theorem uninitialized_ops_behavior (eng : Engine) (now : Int)
    (uid sql : String) (s : DuckPond) (h : s.initialized = false) :
    DuckPond.query eng now uid sql s = (.ok (.error Errors.notInit), s) ∧
    DuckPond.execute eng now uid sql s = (.ok (.error Errors.notInit), s) ∧
    (s.cache.has uid = false →
      DuckPond.detachUser eng now uid s = (.ok (.ok ()), s)) ∧
    (∃ stats, (DuckPond.getUserStats now uid s).1 = .ok (.ok stats)) := by
  have hguard : DuckPond.getUserConnection eng now uid s
      = (.ok (.error Errors.notInit), s) := by
    unfold DuckPond.getUserConnection
    simp [h]
  refine ⟨?_, ?_, ?_, ?_⟩
  · unfold DuckPond.query
    rw [hguard]
  · unfold DuckPond.execute
    rw [hguard]
  · intro hmiss
    have hl : s.cache.entries.lookup uid = none := by
      cases hx : s.cache.entries.lookup uid with
      | none => rfl
      | some v =>
        unfold LRUCache.has at hmiss
        rw [hx] at hmiss
        simp at hmiss
    unfold DuckPond.detachUser
    simp only [LRUCache.get, hl]
  · exact ⟨_, rfl⟩

/-- Witness for the amended C4 on a freshly constructed pond. -/
theorem uninitialized_ops_behavior_witness :
    DuckPond.query okEngine 0 "u1" "SELECT 1" (mkDuckPond cfg10)
      = (.ok (.error Errors.notInit), mkDuckPond cfg10) ∧
    DuckPond.detachUser okEngine 0 "u1" (mkDuckPond cfg10)
      = (.ok (.ok ()), mkDuckPond cfg10) := by
  have h := uninitialized_ops_behavior okEngine 0 "u1" "SELECT 1"
    (mkDuckPond cfg10) (by decide)
  exact ⟨h.1, h.2.2.1 (by decide)⟩

/-! ### Claim C5: failed initialization -/

/-- An engine whose instance creation and connect succeed but whose every
statement run throws (storage configuration failure). -/
def setupFailEngine : Engine :=
  { create := .ok ()
    connect := fun _ => .ok ()
    runq := fun _ _ => .error "setup boom" }

/-- Counterexample to C5 as stated: when storage configuration fails after
engine-instance creation succeeded, the engine-instance reference DOES
survive the failed `init()` call (it is never reset in the catch). -/
theorem failed_init_retains_instance_ref :
    (DuckPond.init setupFailEngine (mkDuckPond cfg10)).1
      = .ok (.error ⟨ErrorCode.CONNECTION_FAILED,
          "Failed to setup cloud storage"⟩) ∧
    ((DuckPond.init setupFailEngine (mkDuckPond cfg10)).2).instanceRef
      = some () := by
  decide

/-- Claim C5 (amended): a failed `init()` (storage configuration throws after
instance creation) returns a `CONNECTION_FAILED` Left and leaves
`initialized` false, no timer registration and an empty cache, and a
subsequent `init()` against a working engine succeeds; however the
engine-instance reference set before the failing step is retained (only
overwritten by the retry), contrary to the claim's "no engine-instance
reference survives". -/
theorem failed_init_state (eng : Engine) (cfg : ResolvedConfig) (m : String)
    (hc : eng.create = .ok ())
    (hcon : eng.connect 0 = .ok ())
    (hrun : DuckPond.runSqls eng 0 (DuckPond.setupSqls cfg) = .error m) :
    (DuckPond.init eng (mkDuckPond cfg)).1
      = .ok (.error ⟨ErrorCode.CONNECTION_FAILED,
          "Failed to setup cloud storage"⟩) ∧
    ((DuckPond.init eng (mkDuckPond cfg)).2).initialized = false ∧
    ((DuckPond.init eng (mkDuckPond cfg)).2).timerRunning = false ∧
    ((DuckPond.init eng (mkDuckPond cfg)).2).evictionTimer = none ∧
    ((DuckPond.init eng (mkDuckPond cfg)).2).cache
      = LRUCache.empty cfg.maxActiveUsers ∧
    ((DuckPond.init eng (mkDuckPond cfg)).2).instanceRef = some () ∧
    (∀ eng2 : Engine, eng2.create = .ok () → eng2.connect 1 = .ok () →
      DuckPond.runSqls eng2 1 (DuckPond.setupSqls cfg) = .ok () →
      (DuckPond.init eng2 (DuckPond.init eng (mkDuckPond cfg)).2).1
        = .ok (.ok ()) ∧
      ((DuckPond.init eng2 (DuckPond.init eng (mkDuckPond cfg)).2).2).initialized
        = true) := by
  have hstep : DuckPond.init eng (mkDuckPond cfg)
      = (.ok (.error ⟨ErrorCode.CONNECTION_FAILED,
          "Failed to setup cloud storage"⟩),
         { mkDuckPond cfg with instanceRef := some (), nextConn := 1 }) := by
    unfold DuckPond.init DuckPond.setupCloudStorage
    simp [mkDuckPond, hc, hcon, hrun, Errors.r2ConnectionError,
      toDuckPondError]
  rw [hstep]
  refine ⟨rfl, rfl, rfl, rfl, rfl, rfl, ?_⟩
  intro eng2 hc2 hcon2 hrun2
  have hstep2 : DuckPond.init eng2
      ({ mkDuckPond cfg with instanceRef := some (), nextConn := 1 })
      = (.ok (.ok ()),
         { mkDuckPond cfg with
            instanceRef := some ()
            nextConn := 2
            timerRunning := true
            evictionTimer := some ()
            initialized := true }) := by
    unfold DuckPond.init DuckPond.setupCloudStorage
    simp [mkDuckPond, hc2, hcon2, hrun2]
  dsimp only
  rw [hstep2]
  exact ⟨rfl, rfl⟩

/-- Witness for the amended C5 at the concrete setup-failure fixture. -/
theorem failed_init_state_witness :
    ((DuckPond.init setupFailEngine (mkDuckPond cfg10)).2).initialized = false ∧
    (DuckPond.init okEngine
      (DuckPond.init setupFailEngine (mkDuckPond cfg10)).2).1 = .ok (.ok ()) := by
  have h := failed_init_state setupFailEngine cfg10 "setup boom"
    (by decide) (by decide) (by decide)
  exact ⟨h.2.1, (h.2.2.2.2.2.2 okEngine (by decide) (by decide) (by decide)).1⟩

/-! ### Claim C6: exceptions escaping the public boundary -/

/-- An engine whose first connect (used by `init`) succeeds but whose second
connect (used by the first cache-miss acquire) throws. -/
def connectFailEngine : Engine :=
  { create := .ok ()
    connect := fun k => if k = 0 then .ok () else .error "connect boom"
    runq := fun _ _ => .ok [] }

/-- An initialized pond whose engine will throw on the next connect. -/
def connectFailPond : DuckPond :=
  (DuckPond.init connectFailEngine (mkDuckPond cfg10)).2

/-- Claim C6 (code bug): the public `query` operation lets an engine exception
escape the public boundary: `await instance.connect()` in
`getUserConnection` is outside every try/catch, so a throwing connect is not
returned as a Left but propagates as a rejected promise (the outer
`Except.error`). -/
theorem connect_throw_escapes_query :
    connectFailPond.initialized = true ∧
    (DuckPond.query connectFailEngine 1 "u1" "SELECT 1" connectFailPond).1
      = Except.error "connect boom" := by
  decide

/-! ### Claim C7: engine-level query failure -/

/-- Claim C7: for an attached tenant, a query that fails inside the engine
returns a `QUERY_EXECUTION_ERROR` Left preserving the engine's (non-empty)
message, and the tenant remains attached — query failure never evicts. -/
theorem query_failure_preserves_attachment
    (eng : Engine) (now : Int) (uid sql : String) (s : DuckPond)
    (e : UserDatabase) (m : String)
    (hinit : s.initialized = true)
    (hl : s.cache.entries.lookup uid = some e)
    (hm : m ≠ "")
    (hrun : eng.runq e.connection sql = .error m) :
    (DuckPond.query eng now uid sql s).1
      = .ok (.error ⟨ErrorCode.QUERY_EXECUTION_ERROR, m⟩) ∧
    (⟨ErrorCode.QUERY_EXECUTION_ERROR, m⟩ : DuckPondError).message ≠ "" ∧
    DuckPond.isAttached uid (DuckPond.query eng now uid sql s).2 = true := by
  have hacq : DuckPond.getUserConnection eng now uid s
      = (.ok (.ok e.connection),
         { s with cache := { s.cache with entries :=
             (LRUCache.removeKey uid s.cache.entries
               ++ [(uid, { e with lastAccess := now })]) } }) := by
    unfold DuckPond.getUserConnection
    simp [hinit, LRUCache.get, hl]
  unfold DuckPond.query
  rw [hacq]
  dsimp only
  rw [hrun]
  refine ⟨rfl, hm, ?_⟩
  simp [DuckPond.isAttached, LRUCache.has, LRUCache.lookup_removeKey_append]

/-- An engine that throws only on a query against a non-existent table. -/
def queryFailEngine : Engine :=
  { create := .ok ()
    connect := fun _ => .ok ()
    runq := fun _ sql =>
      if sql = "SELECT * FROM nonexistent_table"
      then .error "Table with name nonexistent_table does not exist"
      else .ok [] }

/-- A pond with user u1 attached whose engine fails the bad query. -/
def queryFailPond : DuckPond :=
  let s := (DuckPond.init queryFailEngine (mkDuckPond cfg10)).2
  (DuckPond.getUserConnection queryFailEngine 1 "u1" s).2

/-- Witness for C7 at the concrete fixture. -/
theorem query_failure_preserves_attachment_witness :
    (DuckPond.query queryFailEngine 2 "u1" "SELECT * FROM nonexistent_table"
        queryFailPond).1
      = .ok (.error ⟨ErrorCode.QUERY_EXECUTION_ERROR,
          "Table with name nonexistent_table does not exist"⟩) ∧
    DuckPond.isAttached "u1"
      (DuckPond.query queryFailEngine 2 "u1" "SELECT * FROM nonexistent_table"
        queryFailPond).2 = true := by
  have h := query_failure_preserves_attachment queryFailEngine 2 "u1"
    "SELECT * FROM nonexistent_table" queryFailPond
    ⟨"u1", 1, 1, true, none⟩ "Table with name nonexistent_table does not exist"
    (by decide) (by decide) (by decide) (by decide)
  exact ⟨h.1, h.2.2⟩

/-! ### Claim C8: shutdown drains all tenants and resets state -/

namespace LRUCache

theorem filter_idem (p : String × UserDatabase → Bool)
    (l : List (String × UserDatabase)) :
    (l.filter p).filter p = l.filter p :=
  List.filter_eq_self.mpr (fun _ ha => (List.mem_filter.mp ha).2)

/-- Deleting a key from a cache list that ends with that key removes exactly
the appended entry together with any other occurrence of the key. -/
theorem removeKey_append_self (k : String) (v : UserDatabase)
    (l : List (String × UserDatabase)) :
    removeKey k (removeKey k l ++ [(k, v)]) = removeKey k l := by
  unfold removeKey
  rw [List.filter_append]
  simp only [List.filter_cons, bne_self_eq_false, Bool.false_eq_true,
    reduceIte, List.filter_nil, List.append_nil]
  exact filter_idem _ l

end LRUCache

/-- When every engine run succeeds, `detachUser` leaves exactly the cache
without the released key (whatever the storage strategy). -/
theorem detachUser_removes (eng : Engine) (now : Int) (k : String)
    (s : DuckPond)
    (heng : ∀ cn q, ∃ rows, eng.runq cn q = Except.ok rows) :
    (DuckPond.detachUser eng now k s).2
      = { s with cache := { s.cache with
            entries := LRUCache.removeKey k s.cache.entries } } := by
  unfold DuckPond.detachUser
  cases hl : s.cache.entries.lookup k with
  | none =>
    simp only [LRUCache.get, hl]
    rw [LRUCache.removeKey_eq_self hl]
  | some e =>
    simp only [LRUCache.get, hl]
    by_cases hst : s.config.strategy = Strategy.duckdb
    · obtain ⟨rows, hr⟩ := heng e.connection s!"DETACH user_{k}"
      simp only [hst, reduceIte]
      rw [show (({ e with lastAccess := now } : UserDatabase)).connection
            = e.connection from rfl, hr]
      simp only [LRUCache.delete]
      rw [LRUCache.removeKey_append_self]
    · simp only [hst, reduceIte]
      simp only [LRUCache.delete]
      rw [LRUCache.removeKey_append_self]

/-- Folding `detachUser` over a list of keys removes exactly those keys. -/
theorem foldl_detachUser (eng : Engine) (now : Int) (K : List String)
    (s : DuckPond)
    (heng : ∀ cn q, ∃ rows, eng.runq cn q = Except.ok rows) :
    K.foldl (fun acc userId => (DuckPond.detachUser eng now userId acc).2) s
      = { s with cache := { s.cache with
            entries := K.foldl (fun es k => LRUCache.removeKey k es)
              s.cache.entries } } := by
  induction K generalizing s with
  | nil => rfl
  | cons k K ih =>
    rw [List.foldl_cons, List.foldl_cons, detachUser_removes eng now k s heng,
      ih]

theorem foldl_removeKey_eq_filter (K : List String)
    (es : List (String × UserDatabase)) :
    K.foldl (fun acc k => LRUCache.removeKey k acc) es
      = es.filter (fun kv => !K.contains kv.1) := by
  induction K generalizing es with
  | nil => simp
  | cons k K ih =>
    rw [List.foldl_cons, ih]
    unfold LRUCache.removeKey
    rw [List.filter_filter]
    apply List.filter_congr
    intro kv _
    simp only [List.contains_cons, Bool.not_or]
    rw [Bool.and_comm]
    rfl

/-- Removing every key of the cache list empties it. -/
theorem foldl_removeKey_keys (es : List (String × UserDatabase)) :
    (es.map (fun kv => kv.1)).foldl (fun acc k => LRUCache.removeKey k acc) es
      = [] := by
  rw [foldl_removeKey_eq_filter]
  apply List.filter_eq_nil_iff.mpr
  intro kv hm
  have hmem : kv.1 ∈ es.map (fun kv => kv.1) := List.mem_map.mpr ⟨kv, hm, rfl⟩
  have hcont : List.elem kv.1 (es.map (fun kv => kv.1)) = true :=
    List.elem_eq_true_of_mem hmem
  simp only [List.contains, hcont, Bool.not_true]
  simp only [Bool.false_eq_true, not_false_eq_true]

/-- Shared helper: a tenant operation on an uninitialized pond returns the
NotInitialized Left unchanged. -/
theorem query_of_uninitialized (eng : Engine) (now : Int) (uid sql : String)
    (s : DuckPond) (h : s.initialized = false) :
    DuckPond.query eng now uid sql s = (.ok (.error Errors.notInit), s) := by
  unfold DuckPond.query DuckPond.getUserConnection
  simp [h]

/-- The state `close` produces: empty cache, timer stopped, no instance,
uninitialized. -/
theorem close_eq (eng : Engine) (now : Int) (s : DuckPond)
    (heng : ∀ cn q, ∃ rows, eng.runq cn q = Except.ok rows) :
    DuckPond.close eng now s
      = (.ok (.ok ()),
         { s with
            instanceRef := none
            cache := { s.cache with entries := [] }
            timerRunning := false
            initialized := false }) := by
  unfold DuckPond.close
  dsimp only
  rw [foldl_detachUser eng now _ _ heng]
  rw [show ({ s with timerRunning := false } : DuckPond).cache.entries
        = s.cache.entries from rfl]
  rw [show ({ s with timerRunning := false } : DuckPond).cache.keys
        = s.cache.entries.map (fun kv => kv.1) from rfl]
  rw [foldl_removeKey_keys]

/-- A pond with three tenants acquired (the spec's shutdown scenario). -/
def drainPond3 : DuckPond :=
  let s := (DuckPond.init okEngine (mkDuckPond cfg10)).2
  let s := (DuckPond.getUserConnection okEngine 1 "u1" s).2
  let s := (DuckPond.getUserConnection okEngine 2 "u2" s).2
  (DuckPond.getUserConnection okEngine 3 "u3" s).2

/-- Counterexample to C8 as stated: after `close()`, not every subsequent
tenant operation fails with NotInitialized — `detachUser` returns a success
no-op and `getUserStats` returns a success with `attached := false`, because
neither of them checks `initialized` (the behaviour C4's correction
establishes). -/
theorem shutdown_subsequent_detach_succeeds_counterexample :
    ((DuckPond.close okEngine 4 drainPond3).2).initialized = false ∧
    (DuckPond.detachUser okEngine 5 "u1"
        (DuckPond.close okEngine 4 drainPond3).2).1 = .ok (.ok ()) ∧
    (DuckPond.getUserStats 5 "u1"
        (DuckPond.close okEngine 4 drainPond3).2).1
      = .ok (.ok ⟨"u1", false, 0, 0, 0, 0⟩) := by
  decide

/-- Claim C8 (amended): from any manager state (any number of acquired
tenants), when the engine's statement runs succeed, `close()` returns
success and leaves zero cached tenants, `initialized` false and the sweep
timer stopped; a subsequent `query` or `execute` fails with NotInitialized,
while `detachUser` and `getUserStats` — which perform no initialization
check — return success (a no-op and default stats respectively, the cache
being empty); a second `close()` returns success without changing the state
(idempotence). -/
theorem shutdown_drains_and_resets (eng : Engine) (now later : Int)
    (s : DuckPond)
    (heng : ∀ cn q, ∃ rows, eng.runq cn q = Except.ok rows) :
    (DuckPond.close eng now s).1 = .ok (.ok ()) ∧
    (DuckPond.listUsers (DuckPond.close eng now s).2).count = 0 ∧
    ((DuckPond.close eng now s).2).initialized = false ∧
    ((DuckPond.close eng now s).2).timerRunning = false ∧
    (∀ (eng2 : Engine) (uid sql : String),
      (DuckPond.query eng2 later uid sql (DuckPond.close eng now s).2).1
        = .ok (.error Errors.notInit)) ∧
    (∀ (eng2 : Engine) (uid sql : String),
      (DuckPond.execute eng2 later uid sql (DuckPond.close eng now s).2).1
        = .ok (.error Errors.notInit)) ∧
    (∀ (eng2 : Engine) (uid : String),
      DuckPond.detachUser eng2 later uid (DuckPond.close eng now s).2
        = (.ok (.ok ()), (DuckPond.close eng now s).2)) ∧
    (∀ uid : String,
      (DuckPond.getUserStats later uid (DuckPond.close eng now s).2).1
        = .ok (.ok ⟨uid, false, 0, 0, 0, 0⟩)) ∧
    DuckPond.close eng now (DuckPond.close eng now s).2
      = (.ok (.ok ()), (DuckPond.close eng now s).2) := by
  rw [close_eq eng now s heng]
  refine ⟨rfl, rfl, rfl, rfl, ?_, ?_, ?_, ?_, ?_⟩
  · intro eng2 uid sql
    rw [query_of_uninitialized eng2 later uid sql _ rfl]
  · intro eng2 uid sql
    rfl
  · intro eng2 uid
    rfl
  · intro uid
    rfl
  · rfl

/-- Witness for C8 on the three-tenant fixture. -/
theorem shutdown_drains_and_resets_witness :
    (DuckPond.listUsers drainPond3).count = 3 ∧
    (DuckPond.listUsers (DuckPond.close okEngine 4 drainPond3).2).count = 0 ∧
    (DuckPond.query okEngine 5 "u1" "SELECT 1"
        (DuckPond.close okEngine 4 drainPond3).2).1
      = .ok (.error Errors.notInit) := by
  have h := shutdown_drains_and_resets okEngine 4 5 drainPond3
    (fun cn q => ⟨[], rfl⟩)
  exact ⟨by decide, h.2.1, h.2.2.2.2.1 okEngine "u1" "SELECT 1"⟩

/-! ### Claim C10: getUserStats is not read-only -/

/-- Claim C10: `getUserStats` resolves the tenant through the
recency-refreshing `cache.get`: for a cached tenant it moves the entry to
the most-recently-used end and overwrites its `lastAccess` with the current
time (reporting that time in the stats); for an uncached tenant it returns
success with `attached := false` and `lastAccess` = epoch and leaves the
state unchanged. -/
theorem getUserStats_frame_effect (now : Int) (uid : String) (s : DuckPond) :
    (s.cache.entries.lookup uid = none →
      DuckPond.getUserStats now uid s
        = (.ok (.ok ⟨uid, false, 0, 0, 0, 0⟩), s)) ∧
    (∀ e : UserDatabase, s.cache.entries.lookup uid = some e →
      (DuckPond.getUserStats now uid s).1
        = .ok (.ok ⟨uid, true, now, e.memoryUsage.getD 0, 0, 0⟩) ∧
      ((DuckPond.getUserStats now uid s).2).cache.entries
        = LRUCache.removeKey uid s.cache.entries
            ++ [(uid, { e with lastAccess := now })]) := by
  constructor
  · intro h
    have hg : s.cache.get uid now = (none, s.cache) := by
      unfold LRUCache.get
      rw [h]
    unfold DuckPond.getUserStats
    rw [hg]
    rfl
  · intro e he
    have hg : s.cache.get uid now
        = (some { e with lastAccess := now },
           { s.cache with entries :=
             (LRUCache.removeKey uid s.cache.entries
               ++ [(uid, { e with lastAccess := now })]) }) := by
      unfold LRUCache.get
      rw [he]
    unfold DuckPond.getUserStats
    rw [hg]
    exact ⟨rfl, rfl⟩

/-- Witness for C10: a cached tenant's stats report the fresh `lastAccess`
and the entry moves to the MRU end; an uncached tenant yields the epoch
default with no state change. -/
theorem getUserStats_frame_effect_witness :
    (DuckPond.getUserStats 9 "u1" drainPond3).1
      = .ok (.ok ⟨"u1", true, 9, 0, 0, 0⟩) ∧
    DuckPond.getUserStats 9 "zz" drainPond3
      = (.ok (.ok ⟨"zz", false, 0, 0, 0, 0⟩), drainPond3) := by
  have h1 := getUserStats_frame_effect 9 "u1" drainPond3
  have h2 := getUserStats_frame_effect 9 "zz" drainPond3
  exact ⟨(h1.2 ⟨"u1", 1, 1, true, none⟩ (by decide)).1, h2.1 (by decide)⟩
